import Mathlib

/-!
Verification of the spec-compiler compliance gate: a shallow embedding of the
two core evaluators, `buildRendererValidationReport`
(src/utils/renderer-contract.ts) and `evaluateTaste` (src/rules/taste/index.ts),
together with theorems settling the stated properties of their reports.

Modelling conventions:
* JavaScript numbers appearing in the documents are embedded as `Int`
  (every value exercised by the checks is integral; no float-specific
  behavior is relied upon by any rule).
* The external schema-validator collaborator (ajv) is modelled by its
  outcomes: `buildRendererValidationReport` receives the two validity
  booleans and the two formatted error lists as arguments, and the typed
  upgrade of the raw documents is represented by the typed arguments.
* The ruleset file read (`loadRuleset`) and the typed documents are
  arguments; the `new Date().toISOString()` timestamp is the `now` argument.
* A JS value that is `number | string` (consistency bands) is the inductive
  `JValue`; `String(v)` is `jstr`.
-/

/-- A JS `number | string` value, as found in consistency bands. -/
inductive JValue where
  | num (n : Int)
  | str (s : String)
deriving Repr, DecidableEq

/-- JS `String(v)` on a `number | string` value. -/
def jstr : JValue → String
  | JValue.num n => toString n
  | JValue.str s => s

/-- Numeric cast used by the `values as number[]` branch of `checkVariance`
(only ever reached on all-numeric lists). -/
def jnum : JValue → Int
  | JValue.num n => n
  | JValue.str _ => 0

/-- Insertion-order deduplication: the element list of a JS `Set` built from a
list (first occurrence kept, order preserved). -/
def dedupKeepFirst : List String → List String
  | [] => []
  | a :: l => a :: (dedupKeepFirst l).filter (fun b => b ≠ a)

/-- types.ts `ValidationRuleResult`. -/
structure ValidationRuleResult where
  id : String
  passed : Bool
  message : String
  counterexample : Option String
deriving Repr, DecidableEq

/-- Renderer identity echoed in reports. -/
structure RendererId where
  name : String
  version : String
  target : String
deriving Repr, DecidableEq

/-- types.ts `RendererValidationReport`. `status` is the literal string
`"passed"` or `"failed"`, as in the source. -/
structure RendererValidationReport where
  status : String
  generated_at : String
  renderer : RendererId
  rules : List ValidationRuleResult
  errors : List ValidationRuleResult
deriving Repr, DecidableEq

/-- types.ts `RendererContract`. -/
structure RendererContract where
  id : String
  version : String
deriving Repr, DecidableEq

/-- types.ts `RendererReference`. -/
structure RendererReference where
  id : String
  version : String
  checksum : Option String
deriving Repr, DecidableEq

/-- types.ts `RendererImmutableReference`. -/
structure RendererImmutableReference where
  id : String
  version : String
  checksum : String
deriving Repr, DecidableEq

/-- types.ts `RendererMetadata`. -/
structure RendererMetadata where
  name : String
  version : String
  target : String
  declares_contract : String
deriving Repr, DecidableEq

/-- types.ts `RendererArtifact`. -/
structure RendererArtifact where
  format : String
  uri : String
  checksum : Option String
deriving Repr, DecidableEq

/-- types.ts `RendererTokenUsage`. -/
structure RendererTokenUsage where
  declared : List String
  undeclared : List String
deriving Repr, DecidableEq

/-- types.ts `RendererPatternUsage`. -/
structure RendererPatternUsage where
  declared : List String
deriving Repr, DecidableEq

/-- types.ts `RendererDeterminism`. -/
structure RendererDeterminism where
  deterministic : Bool
  markers : List String
deriving Repr, DecidableEq

/-- types.ts `RendererTasteTypographyRole`. -/
structure RendererTasteTypographyRole where
  role : String
  size : Int
deriving Repr, DecidableEq

/-- types.ts `RendererTasteTypography`. -/
structure RendererTasteTypography where
  roles : List RendererTasteTypographyRole
deriving Repr, DecidableEq

/-- types.ts `RendererTasteSpacing`. -/
structure RendererTasteSpacing where
  values : List Int
deriving Repr, DecidableEq

/-- types.ts `RendererTasteColorContrast`; `ratioVal` embeds the `ratio`
field. -/
structure RendererTasteColorContrast where
  pair : String
  ratioVal : Int
deriving Repr, DecidableEq

/-- types.ts `RendererTasteColor`. -/
structure RendererTasteColor where
  tokens : List String
  contrast : List RendererTasteColorContrast
deriving Repr, DecidableEq

/-- types.ts `RendererTasteDensity`. -/
structure RendererTasteDensity where
  interactions_per_view : Int
deriving Repr, DecidableEq

/-- types.ts `RendererTasteConsistency`. -/
structure RendererTasteConsistency where
  radius : List Int
  elevation : List Int
  motion : List String
deriving Repr, DecidableEq

/-- types.ts `RendererTastePatternUsage`. -/
structure RendererTastePatternUsage where
  pattern : String
  intent : String
deriving Repr, DecidableEq

/-- types.ts `RendererTastePatterns`. -/
structure RendererTastePatterns where
  usage : List RendererTastePatternUsage
deriving Repr, DecidableEq

/-- types.ts `RendererTaste`. -/
structure RendererTaste where
  typography : RendererTasteTypography
  spacing : RendererTasteSpacing
  color : RendererTasteColor
  density : RendererTasteDensity
  consistency : RendererTasteConsistency
  patterns : RendererTastePatterns
deriving Repr, DecidableEq

/-- types.ts `RendererOutputManifest.inputs`. -/
structure RendererManifestInputs where
  design_intent : RendererImmutableReference
  visual_constitution : RendererReference
  pattern_registries : Option (List RendererReference)
deriving Repr, DecidableEq

/-- types.ts `RendererOutputManifest.outputs`; `constitution_violations` embeds
the nested `constitution.violations` list. -/
structure RendererManifestOutputs where
  artifact : RendererArtifact
  token_usage : RendererTokenUsage
  pattern_usage : RendererPatternUsage
  constitution_violations : List String
  determinism : RendererDeterminism
deriving Repr, DecidableEq

/-- types.ts `RendererOutputManifest`. -/
structure RendererOutputManifest where
  contract : RendererContract
  renderer : RendererMetadata
  inputs : RendererManifestInputs
  outputs : RendererManifestOutputs
  taste : RendererTaste
  generated_at : Option String
  notes : Option (List String)
deriving Repr, DecidableEq

/-- types.ts `RendererRegistryEntry`. -/
structure RendererRegistryEntry where
  name : String
  version : String
  target : String
  contract_id : String
deriving Repr, DecidableEq

/-- types.ts `RendererRegistry`. -/
structure RendererRegistry where
  registry_version : String
  renderers : List RendererRegistryEntry
deriving Repr, DecidableEq

/-- types.ts `TypographyConstitution.roles` entry. -/
structure TypographyRoleRange where
  name : String
  min : Int
  max : Int
deriving Repr, DecidableEq

/-- types.ts `TypographyConstitution`. -/
structure TypographyConstitution where
  max_font_sizes : Int
  roles : List TypographyRoleRange
  hierarchy : List String
deriving Repr, DecidableEq

/-- types.ts `SpacingConstitution`. -/
structure SpacingConstitution where
  allowed_values : List Int
  max_variance : Int
deriving Repr, DecidableEq

/-- types.ts `ColorConstitution`. -/
structure ColorConstitution where
  allowed_tokens : List String
  contrast_floor : Int
deriving Repr, DecidableEq

/-- types.ts `DensityConstitution`. -/
structure DensityConstitution where
  max_interactions_per_view : Int
deriving Repr, DecidableEq

/-- types.ts `ConsistencyBand` (`allowed_values : number[] | string[]`,
optional `max_variance`). -/
structure ConsistencyBand where
  allowed_values : List JValue
  max_variance : Option Int
deriving Repr, DecidableEq

/-- types.ts `PatternsConstitution`; the `Record<string, string[]>` of intents
is an association list with JS-object key lookup (`List.lookup`). -/
structure PatternsConstitution where
  allowed : List String
  intents : Option (List (String × List String))
deriving Repr, DecidableEq

/-- types.ts `VisualConstitution.consistency`. -/
structure ConsistencyConstitution where
  radius : ConsistencyBand
  elevation : ConsistencyBand
  motion : ConsistencyBand
deriving Repr, DecidableEq

/-- types.ts `VisualConstitution`. -/
structure VisualConstitution where
  id : String
  version : String
  typography : TypographyConstitution
  spacing : SpacingConstitution
  color : ColorConstitution
  density : DensityConstitution
  consistency : ConsistencyConstitution
  patterns : Option PatternsConstitution
deriving Repr, DecidableEq

/-- types.ts `DesignIntentTaste`. `density` embeds
`intent.density?.max_interactions_per_view` as accessed by the evaluator:
`none` covers both an absent `density` object and an `undefined`/`null`
limit (the `=== undefined || === null` test at the density rule). -/
structure DesignIntentTaste where
  id : String
  version : String
  density : Option Int
  allowed_patterns : Option (List (String × List String))
deriving Repr, DecidableEq

/-- taste/index.ts `TasteRuleMeta`. -/
structure TasteRuleMeta where
  id : String
  description : String
  clause : String
  intent_reference : String
  remediation : String
deriving Repr, DecidableEq

/-- taste/index.ts `TasteRuleset`. -/
structure TasteRuleset where
  version : String
  rules : List TasteRuleMeta
deriving Repr, DecidableEq

/-- types.ts `TasteRuleResult`. -/
structure TasteRuleResult where
  id : String
  passed : Bool
  message : String
  description : String
  clause : String
  intent_reference : String
  remediation : String
  counterexample : Option String
deriving Repr, DecidableEq

/-- types.ts `TasteReport`. -/
structure TasteReport where
  status : String
  generated_at : String
  renderer : RendererId
  ruleset_version : String
  rules : List TasteRuleResult
  errors : List TasteRuleResult
deriving Repr, DecidableEq

/-- taste/index.ts `TasteEvaluationOptions` (`rulesetPath` is consumed by the
file-loading adapter and does not reach the evaluation logic, whose ruleset is
an argument here). -/
structure TasteEvaluationOptions where
  failFast : Option Bool
  verbose : Option Bool
deriving Repr, DecidableEq

/-! ## RendererContractValidator (src/utils/renderer-contract.ts) -/

/-- renderer-contract.ts `ruleResult`. -/
def ruleResult (id : String) (passed : Bool) (message : String)
    (counterexample : Option String) : ValidationRuleResult :=
  { id := id, passed := passed, message := message, counterexample := counterexample }

/-- renderer-contract.ts `unknownRenderer`. -/
def unknownRenderer : RendererId :=
  { name := "unknown", version := "unknown", target := "unknown" }

/-- The `renderer-manifest.schema` rule, from the first `rules.push` block:
passed flag and formatted errors come from the ajv collaborator. -/
def manifestSchemaRule (manifestValid : Bool) (manifestErrors : List String) :
    ValidationRuleResult :=
  ruleResult "renderer-manifest.schema" manifestValid
    (if manifestValid then
      "Renderer manifest matches contracts/renderer-contract.schema.json."
    else
      "Renderer manifest fails contracts/renderer-contract.schema.json validation.")
    (if manifestValid then none else manifestErrors.head?)

/-- The `renderer-registry.schema` rule, from the second `rules.push` block. -/
def registrySchemaRule (registryValid : Bool) (registryErrors : List String) :
    ValidationRuleResult :=
  ruleResult "renderer-registry.schema" registryValid
    (if registryValid then
      "Renderer registry matches contracts/renderer-registry.schema.json."
    else
      "Renderer registry fails contracts/renderer-registry.schema.json validation.")
    (if registryValid then none else registryErrors.head?)

/-- The `renderer-contract.declared.rule` block. -/
def contractDeclaredRule (manifest : RendererOutputManifest) : ValidationRuleResult :=
  let contractDeclared := manifest.renderer.declares_contract == manifest.contract.id
  let a := manifest.renderer.declares_contract
  let b := manifest.contract.id
  ruleResult "renderer-contract.declared.rule" contractDeclared
    (if contractDeclared then
      "Renderer declares the active renderer contract."
    else
      "Renderer declares a contract that does not match the manifest contract.")
    (if contractDeclared then none
     else some s!"declares_contract={a}, contract.id={b}")

/-- `registry.renderers.find(...)` on the manifest identity. -/
def findRegisteredRenderer (manifest : RendererOutputManifest)
    (registry : RendererRegistry) : Option RendererRegistryEntry :=
  registry.renderers.find? (fun entry =>
    entry.name == manifest.renderer.name &&
    entry.version == manifest.renderer.version &&
    entry.target == manifest.renderer.target)

/-- The `renderer-registration.rule` block. -/
def rendererRegistrationRule (manifest : RendererOutputManifest)
    (registry : RendererRegistry) : ValidationRuleResult :=
  let rendererRegistered := (findRegisteredRenderer manifest registry).isSome
  let nm := manifest.renderer.name
  let vr := manifest.renderer.version
  let tg := manifest.renderer.target
  ruleResult "renderer-registration.rule" rendererRegistered
    (if rendererRegistered then
      "Renderer is registered for this target and version."
    else
      "Renderer is not registered; add it to config/renderer-registry.json.")
    (if rendererRegistered then none
     else some s!"{nm}@{vr} target={tg}")

/-- The `renderer-contract.registry.rule` block: passes only when registered
and the matched entry carries the manifest contract id; the nested ternary on
the counterexample distinguishes a contract mismatch from a missing entry. -/
def registryContractRule (manifest : RendererOutputManifest)
    (registry : RendererRegistry) : ValidationRuleResult :=
  let registeredRenderer := findRegisteredRenderer manifest registry
  let registryContractMatch :=
    match registeredRenderer with
    | some entry => entry.contract_id == manifest.contract.id
    | none => false
  ruleResult "renderer-contract.registry.rule" registryContractMatch
    (if registryContractMatch then
      "Renderer registry contract matches the manifest contract."
    else
      "Renderer registry contract does not match the manifest contract.")
    (if registryContractMatch then none
     else
       match registeredRenderer with
       | some entry =>
         let a := entry.contract_id
         let b := manifest.contract.id
         some s!"registry.contract_id={a}, manifest.contract.id={b}"
       | none => some "Renderer entry missing from registry.")

/-- The `token-usage.declared.rule` block. -/
def tokenUsageRule (manifest : RendererOutputManifest) : ValidationRuleResult :=
  let undeclaredTokens := manifest.outputs.token_usage.undeclared
  let tokenUsageValid := undeclaredTokens.isEmpty
  ruleResult "token-usage.declared.rule" tokenUsageValid
    (if tokenUsageValid then
      "Token usage is fully declared."
    else
      "Undeclared token usage detected; declare all tokens or remove undeclared usage.")
    (if tokenUsageValid then none else undeclaredTokens.head?)

/-- The `constitution-compliance.rule` block. -/
def constitutionComplianceRule (manifest : RendererOutputManifest) :
    ValidationRuleResult :=
  let constitutionViolations := manifest.outputs.constitution_violations
  let constitutionValid := constitutionViolations.isEmpty
  ruleResult "constitution-compliance.rule" constitutionValid
    (if constitutionValid then
      "No constitution violations reported."
    else
      "Renderer reports constitution violations; resolve them before compiling.")
    (if constitutionValid then none else constitutionViolations.head?)

/-- The `deterministic-output.rule` block: `deterministic === true` with an
empty markers list; the counterexample ternary reports the first marker when
markers exist, else the literal `deterministic=false`. -/
def deterministicOutputRule (manifest : RendererOutputManifest) :
    ValidationRuleResult :=
  let determinismMarkers := manifest.outputs.determinism.markers
  let deterministicFlag := manifest.outputs.determinism.deterministic
  let determinismValid := deterministicFlag && determinismMarkers.isEmpty
  ruleResult "deterministic-output.rule" determinismValid
    (if determinismValid then
      "Renderer output is marked deterministic and free of nondeterminism markers."
    else
      "Renderer output is marked nondeterministic; remove markers or set deterministic=true.")
    (if determinismValid then none
     else
       match determinismMarkers with
       | marker :: _ => some marker
       | [] => some "deterministic=false")

/-- The early-return block of `buildRendererValidationReport`, taken when
either document is schema-invalid: only the two schema rules, the sentinel
renderer identity. -/
def contractFailureReport (now : String) (r1 r2 : ValidationRuleResult) :
    RendererValidationReport :=
  { status := "failed"
    generated_at := now
    renderer := unknownRenderer
    rules := [r1, r2]
    errors := ([r1, r2]).filter (fun rule => !rule.passed) }

/-- The final report block of `buildRendererValidationReport`. -/
def contractFinalReport (manifest : RendererOutputManifest) (now : String)
    (rules : List ValidationRuleResult) : RendererValidationReport :=
  let errors := rules.filter (fun rule => !rule.passed)
  { status := if errors.length = 0 then "passed" else "failed"
    generated_at := now
    renderer :=
      { name := manifest.renderer.name
        version := manifest.renderer.version
        target := manifest.renderer.target }
    rules := rules
    errors := errors }

/-- renderer-contract.ts `buildRendererValidationReport`. The ajv outcomes on
the two documents (`manifestValid`/`manifestErrors`,
`registryValid`/`registryErrors`) and the typed documents are arguments; `now`
is the generation timestamp. -/
def buildRendererValidationReport (manifest : RendererOutputManifest)
    (registry : RendererRegistry) (manifestValid : Bool)
    (manifestErrors : List String) (registryValid : Bool)
    (registryErrors : List String) (now : String) : RendererValidationReport :=
  let r1 := manifestSchemaRule manifestValid manifestErrors
  let r2 := registrySchemaRule registryValid registryErrors
  if !manifestValid || !registryValid then
    contractFailureReport now r1 r2
  else
    contractFinalReport manifest now
      [r1, r2,
       contractDeclaredRule manifest,
       rendererRegistrationRule manifest registry,
       registryContractRule manifest registry,
       tokenUsageRule manifest,
       constitutionComplianceRule manifest,
       deterministicOutputRule manifest]

/-! ## TasteEvaluator (src/rules/taste/index.ts) -/

/-- taste/index.ts `getRuleMeta`: catalog lookup with the placeholder
fallback for an unknown id. -/
def getRuleMeta (id : String) (ruleset : TasteRuleset) : TasteRuleMeta :=
  match ruleset.rules.find? (fun rule => rule.id == id) with
  | some found => found
  | none =>
    { id := id
      description := "Rule metadata not found; update ruleset."
      clause := "unspecified"
      intent_reference := "unspecified"
      remediation := "Review rule definition." }

/-- taste/index.ts `buildResult`. -/
def buildResult (meta : TasteRuleMeta) (passed : Bool) (message : String)
    (counterexample : Option String) : TasteRuleResult :=
  { id := meta.id
    passed := passed
    message := message
    description := meta.description
    clause := meta.clause
    intent_reference := meta.intent_reference
    remediation := meta.remediation
    counterexample := counterexample }

/-- taste/index.ts `checkAllowedValues`: membership of each value in the JS
`Set` of the stringified allowed values. -/
def checkAllowedValues (band : ConsistencyBand) (values : List JValue) :
    Option String :=
  let allowedSet := dedupKeepFirst (band.allowed_values.map jstr)
  match values.find? (fun value => !(allowedSet.contains (jstr value))) with
  | none => none
  | some invalid =>
    let iv := jstr invalid
    let joined := String.intercalate ", " allowedSet
    some s!"{iv} not in allowed set: {joined}"

/-- taste/index.ts `checkVariance`: numeric axes compare max − min against
`max_variance`; string axes only reject several distinct values when
`max_variance` is exactly 0. The `typeof values[0]` test is the match on the
head. -/
def checkVariance (band : ConsistencyBand) (values : List JValue) :
    Option String :=
  match band.max_variance with
  | none => none
  | some maxVariance =>
    match values with
    | [] => none
    | v0 :: rest =>
      match v0 with
      | JValue.num _ =>
        let mx := (rest.map jnum).foldl max (jnum v0)
        let mn := (rest.map jnum).foldl min (jnum v0)
        let variance := mx - mn
        if maxVariance < variance then
          some s!"variance {variance} exceeds max_variance {maxVariance}"
        else none
      | JValue.str _ =>
        let uniqueCount := (dedupKeepFirst ((v0 :: rest).map jstr)).length
        if 1 < uniqueCount ∧ maxVariance = 0 then
          some s!"multiple values present but max_variance is {maxVariance}"
        else none

/-- The `typography.max-sizes.rule` block: distinct declared font sizes
(`new Set(roles.map(r => r.size)).size`) against `max_font_sizes`. -/
def typographyMaxSizesRule (manifest : RendererOutputManifest)
    (constitution : VisualConstitution) (ruleset : TasteRuleset) :
    TasteRuleResult :=
  let meta := getRuleMeta "typography.max-sizes.rule" ruleset
  let sizeCount := (manifest.taste.typography.roles.map
    (fun role => role.size)).dedup.length
  let allowed := constitution.typography.max_font_sizes
  let passed := decide ((sizeCount : Int) ≤ allowed)
  let message :=
    if passed then "Typography size count within allowed maximum."
    else s!"Used {sizeCount} font sizes; allowed maximum is {allowed}."
  buildResult meta passed message (if passed then none else some message)

/-- The declared-roles loop of `typography.hierarchy.rule`: first declared
role missing from the constitution table or sized outside its range. -/
def roleRangeError (roleDefs : List TypographyRoleRange) :
    List RendererTasteTypographyRole → Option String
  | [] => none
  | role :: rest =>
    match roleDefs.find? (fun entry => entry.name == role.role) with
    | none =>
      let rn := role.role
      some s!"Role \x27{rn}\x27 is not defined in constitution."
    | some defn =>
      if role.size < defn.min ∨ defn.max < role.size then
        let rn := role.role
        let sz := role.size
        let mn := defn.min
        let mx := defn.max
        some s!"Role \x27{rn}\x27 size {sz} outside {mn}-{mx}."
      else roleRangeError roleDefs rest

/-- The `sizeByRole` lookup of `typography.hierarchy.rule`: the Map is keyed
by hierarchy role names with the first matching declared size, so a lookup at
a hierarchy name equals the direct first-match search. -/
def declaredSize (declaredRoles : List RendererTasteTypographyRole)
    (roleName : String) : Option Int :=
  (declaredRoles.find? (fun entry => entry.role == roleName)).map
    (fun entry => entry.size)

/-- The adjacent-pair walk of `typography.hierarchy.rule`: first adjacent
hierarchy pair with both sizes declared where the earlier is smaller. -/
def hierarchyPairError (declaredRoles : List RendererTasteTypographyRole) :
    List String → Option String
  | a :: b :: rest =>
    match declaredSize declaredRoles a, declaredSize declaredRoles b with
    | some current, some next =>
      if current < next then
        some s!"{a} ({current}) should not be smaller than {b} ({next})."
      else hierarchyPairError declaredRoles (b :: rest)
    | _, _ => hierarchyPairError declaredRoles (b :: rest)
  | _ => none

/-- The `typography.hierarchy.rule` block. -/
def typographyHierarchyRule (manifest : RendererOutputManifest)
    (constitution : VisualConstitution) (ruleset : TasteRuleset) :
    TasteRuleResult :=
  let meta := getRuleMeta "typography.hierarchy.rule" ruleset
  let roleDefs := constitution.typography.roles
  let hierarchy := constitution.typography.hierarchy
  let declaredRoles := manifest.taste.typography.roles
  let counterexample :=
    match roleRangeError roleDefs declaredRoles with
    | some e => some e
    | none =>
      if 1 < hierarchy.length then hierarchyPairError declaredRoles hierarchy
      else none
  let passed := counterexample.isNone
  let message :=
    match counterexample with
    | none => "Typography roles satisfy hierarchy ranges."
    | some e => e
  buildResult meta passed message (if passed then none else some message)

/-- The `spacing.allowed-values.rule` block. -/
def spacingAllowedRule (manifest : RendererOutputManifest)
    (constitution : VisualConstitution) (ruleset : TasteRuleset) :
    TasteRuleResult :=
  let meta := getRuleMeta "spacing.allowed-values.rule" ruleset
  let allowed := constitution.spacing.allowed_values
  let invalid := manifest.taste.spacing.values.find?
    (fun value => !(allowed.contains value))
  let passed := invalid.isNone
  let message :=
    match invalid with
    | none => "Spacing values are enumerated in the constitution."
    | some v => s!"Spacing value {v} not allowed."
  buildResult meta passed message (if passed then none else some message)

/-- The `spacing.variance.rule` block. -/
def spacingVarianceRule (manifest : RendererOutputManifest)
    (constitution : VisualConstitution) (ruleset : TasteRuleset) :
    TasteRuleResult :=
  let meta := getRuleMeta "spacing.variance.rule" ruleset
  let values := manifest.taste.spacing.values
  let variance :=
    match values with
    | [] => (0 : Int)
    | v :: rest => rest.foldl max v - rest.foldl min v
  let allowedVariance := constitution.spacing.max_variance
  let passed := decide (variance ≤ allowedVariance)
  let message :=
    if passed then "Spacing variance within allowed range."
    else s!"Spacing variance {variance} exceeds allowed {allowedVariance}."
  buildResult meta passed message (if passed then none else some message)

/-- The `color.allowed.rule` block. -/
def colorAllowedRule (manifest : RendererOutputManifest)
    (constitution : VisualConstitution) (ruleset : TasteRuleset) :
    TasteRuleResult :=
  let meta := getRuleMeta "color.allowed.rule" ruleset
  let allowed := constitution.color.allowed_tokens
  let invalid := manifest.taste.color.tokens.find?
    (fun token => !(allowed.contains token))
  let passed := invalid.isNone
  let message :=
    match invalid with
    | none => "All colors mapped to allowed tokens."
    | some token => s!"Color token \x27{token}\x27 is not allowed."
  buildResult meta passed message (if passed then none else some message)

/-- The `color.contrast.rule` block. -/
def colorContrastRule (manifest : RendererOutputManifest)
    (constitution : VisualConstitution) (ruleset : TasteRuleset) :
    TasteRuleResult :=
  let meta := getRuleMeta "color.contrast.rule" ruleset
  let floor := constitution.color.contrast_floor
  let failing := manifest.taste.color.contrast.find?
    (fun entry => entry.ratioVal < floor)
  let passed := failing.isNone
  let message :=
    match failing with
    | none => "All contrast ratios meet the floor."
    | some entry =>
      let r := entry.ratioVal
      let p := entry.pair
      s!"Contrast ratio {r} for {p} below floor {floor}."
  buildResult meta passed message (if passed then none else some message)

/-- The `density.limit.rule` block: an absent intent limit fails outright;
otherwise declared interactions-per-view against the limit. -/
def densityLimitRule (manifest : RendererOutputManifest)
    (intent : DesignIntentTaste) (ruleset : TasteRuleset) : TasteRuleResult :=
  let meta := getRuleMeta "density.limit.rule" ruleset
  match intent.density with
  | none =>
    let message := "Design intent missing density limit."
    buildResult meta false message (some message)
  | some intentLimit =>
    let actual := manifest.taste.density.interactions_per_view
    let passed := decide (actual ≤ intentLimit)
    let message :=
      if passed then "Interaction density within intent limits."
      else s!"Interactions per view {actual} exceeds intent limit {intentLimit}."
    buildResult meta passed message (if passed then none else some message)

/-- The `consistency.allowed.rule` block: per-axis `checkAllowedValues`, the
JS `||` chain taking the first axis error (the error strings are nonempty). -/
def consistencyAllowedRule (manifest : RendererOutputManifest)
    (constitution : VisualConstitution) (ruleset : TasteRuleset) :
    TasteRuleResult :=
  let meta := getRuleMeta "consistency.allowed.rule" ruleset
  let consistency := manifest.taste.consistency
  let constitutionConsistency := constitution.consistency
  let radiusError := checkAllowedValues constitutionConsistency.radius
    (consistency.radius.map JValue.num)
  let elevationError := checkAllowedValues constitutionConsistency.elevation
    (consistency.elevation.map JValue.num)
  let motionError := checkAllowedValues constitutionConsistency.motion
    (consistency.motion.map JValue.str)
  let firstError := (radiusError.orElse
    (fun _ => elevationError)).orElse (fun _ => motionError)
  let passed := firstError.isNone
  let message :=
    match firstError with
    | none => "Consistency values align with allowed sets."
    | some e => e
  buildResult meta passed message (if passed then none else some message)

/-- The `consistency.variance.rule` block. -/
def consistencyVarianceRule (manifest : RendererOutputManifest)
    (constitution : VisualConstitution) (ruleset : TasteRuleset) :
    TasteRuleResult :=
  let meta := getRuleMeta "consistency.variance.rule" ruleset
  let consistency := manifest.taste.consistency
  let constitutionConsistency := constitution.consistency
  let radiusVariance := checkVariance constitutionConsistency.radius
    (consistency.radius.map JValue.num)
  let elevationVariance := checkVariance constitutionConsistency.elevation
    (consistency.elevation.map JValue.num)
  let motionVariance := checkVariance constitutionConsistency.motion
    (consistency.motion.map JValue.str)
  let firstError := (radiusVariance.orElse
    (fun _ => elevationVariance)).orElse (fun _ => motionVariance)
  let passed := firstError.isNone
  let message :=
    match firstError with
    | none => "Consistency variance within limits."
    | some e => e
  buildResult meta passed message (if passed then none else some message)

/-- The per-usage body of the `patterns.intent.rule` loop: missing patterns
policy, pattern outside the allowed set, or intent outside the permitted set
(intent override first, else constitution mapping, else empty). -/
def singleUsageError (constitutionPatterns : Option PatternsConstitution)
    (intentAllowedPatterns : Option (List (String × List String)))
    (entry : RendererTastePatternUsage) : Option String :=
  match constitutionPatterns with
  | none => some "Constitution patterns not provided; cannot authorize usage."
  | some pats =>
    if !(pats.allowed.contains entry.pattern) then
      let p := entry.pattern
      some s!"Pattern \x27{p}\x27 is not allowed by constitution."
    else
      let allowedIntents :=
        ((intentAllowedPatterns.bind (fun m => m.lookup entry.pattern)).orElse
          (fun _ => pats.intents.bind (fun m => m.lookup entry.pattern))).getD []
      if !(allowedIntents.contains entry.intent) then
        let p := entry.pattern
        let i := entry.intent
        let joined := String.intercalate ", " allowedIntents
        some s!"Pattern \x27{p}\x27 not permitted for intent \x27{i}\x27. Allowed: {joined}"
      else none

/-- The `patterns.intent.rule` loop: first violating usage, in declaration
order. -/
def patternUsageError (constitutionPatterns : Option PatternsConstitution)
    (intentAllowedPatterns : Option (List (String × List String))) :
    List RendererTastePatternUsage → Option String
  | [] => none
  | entry :: rest =>
    match singleUsageError constitutionPatterns intentAllowedPatterns entry with
    | some e => some e
    | none => patternUsageError constitutionPatterns intentAllowedPatterns rest

/-- The `patterns.intent.rule` block. -/
def patternsIntentRule (manifest : RendererOutputManifest)
    (constitution : VisualConstitution) (intent : DesignIntentTaste)
    (ruleset : TasteRuleset) : TasteRuleResult :=
  let meta := getRuleMeta "patterns.intent.rule" ruleset
  let usage := manifest.taste.patterns.usage
  let firstError := patternUsageError constitution.patterns
    intent.allowed_patterns usage
  let passed := firstError.isNone
  let message :=
    match firstError with
    | none => "Pattern usage aligns with intent and constitution."
    | some e => e
  buildResult meta passed message (if passed then none else some message)

/-- The early-return report block repeated after each `addResult` call in
`evaluateTaste` (each occurrence is this same literal). -/
def earlyTasteReport (manifest : RendererOutputManifest)
    (ruleset : TasteRuleset) (now : String) (results : List TasteRuleResult) :
    TasteReport :=
  { status := "failed"
    generated_at := now
    renderer :=
      { name := manifest.renderer.name
        version := manifest.renderer.version
        target := manifest.renderer.target }
    ruleset_version := ruleset.version
    rules := results
    errors := results.filter (fun rule => !rule.passed) }

/-- The final report block of `evaluateTaste`. -/
def finalTasteReport (manifest : RendererOutputManifest)
    (ruleset : TasteRuleset) (now : String) (results : List TasteRuleResult) :
    TasteReport :=
  let errors := results.filter (fun rule => !rule.passed)
  { status := if errors.length = 0 then "passed" else "failed"
    generated_at := now
    renderer :=
      { name := manifest.renderer.name
        version := manifest.renderer.version
        target := manifest.renderer.target }
    ruleset_version := ruleset.version
    rules := results
    errors := errors }

/-- taste/index.ts `evaluateTaste`. The loaded ruleset is the `ruleset`
argument and the timestamp is `now`; each
`if (shouldStop) return {...}` of the source is an `if` on the `addResult`
stop condition `!result.passed && failFast && !verbose`. -/
def evaluateTaste (manifest : RendererOutputManifest)
    (constitution : VisualConstitution) (intent : DesignIntentTaste)
    (ruleset : TasteRuleset) (options : TasteEvaluationOptions)
    (now : String) : TasteReport :=
  let failFast := options.failFast.getD true
  let verbose := options.verbose.getD false
  let r1 := typographyMaxSizesRule manifest constitution ruleset
  if !r1.passed && failFast && !verbose then
    earlyTasteReport manifest ruleset now [r1]
  else
  let r2 := typographyHierarchyRule manifest constitution ruleset
  if !r2.passed && failFast && !verbose then
    earlyTasteReport manifest ruleset now [r1, r2]
  else
  let r3 := spacingAllowedRule manifest constitution ruleset
  if !r3.passed && failFast && !verbose then
    earlyTasteReport manifest ruleset now [r1, r2, r3]
  else
  let r4 := spacingVarianceRule manifest constitution ruleset
  if !r4.passed && failFast && !verbose then
    earlyTasteReport manifest ruleset now [r1, r2, r3, r4]
  else
  let r5 := colorAllowedRule manifest constitution ruleset
  if !r5.passed && failFast && !verbose then
    earlyTasteReport manifest ruleset now [r1, r2, r3, r4, r5]
  else
  let r6 := colorContrastRule manifest constitution ruleset
  if !r6.passed && failFast && !verbose then
    earlyTasteReport manifest ruleset now [r1, r2, r3, r4, r5, r6]
  else
  let r7 := densityLimitRule manifest intent ruleset
  if !r7.passed && failFast && !verbose then
    earlyTasteReport manifest ruleset now [r1, r2, r3, r4, r5, r6, r7]
  else
  let r8 := consistencyAllowedRule manifest constitution ruleset
  if !r8.passed && failFast && !verbose then
    earlyTasteReport manifest ruleset now [r1, r2, r3, r4, r5, r6, r7, r8]
  else
  let r9 := consistencyVarianceRule manifest constitution ruleset
  if !r9.passed && failFast && !verbose then
    earlyTasteReport manifest ruleset now [r1, r2, r3, r4, r5, r6, r7, r8, r9]
  else
  let r10 := patternsIntentRule manifest constitution intent ruleset
  finalTasteReport manifest ruleset now [r1, r2, r3, r4, r5, r6, r7, r8, r9, r10]

/-- The full ordered catalog of rule results one evaluation can produce: the
nine ordered checks of the spec, the consistency check contributing its two
rule results. -/
def tasteAllRules (manifest : RendererOutputManifest)
    (constitution : VisualConstitution) (intent : DesignIntentTaste)
    (ruleset : TasteRuleset) : List TasteRuleResult :=
  [typographyMaxSizesRule manifest constitution ruleset,
   typographyHierarchyRule manifest constitution ruleset,
   spacingAllowedRule manifest constitution ruleset,
   spacingVarianceRule manifest constitution ruleset,
   colorAllowedRule manifest constitution ruleset,
   colorContrastRule manifest constitution ruleset,
   densityLimitRule manifest intent ruleset,
   consistencyAllowedRule manifest constitution ruleset,
   consistencyVarianceRule manifest constitution ruleset,
   patternsIntentRule manifest constitution intent ruleset]

/-- The prefix of a rule list up to and including its first failing entry
(the whole list when every entry passes). -/
def takeToFirstFailure : List TasteRuleResult → List TasteRuleResult
  | [] => []
  | rule :: rest =>
    if rule.passed then rule :: takeToFirstFailure rest else [rule]

/-! ## Concrete fixture documents (for witness instantiations) -/

/-- An empty rule-metadata catalog: every lookup takes the placeholder
branch, which the evaluator tolerates by design. -/
def testRuleset : TasteRuleset :=
  { version := "1.0.0", rules := [] }

/-- A small compliant constitution fixture. -/
def testConstitution : VisualConstitution :=
  { id := "const-1"
    version := "1.0.0"
    typography :=
      { max_font_sizes := 4
        roles := [{ name := "h1", min := 10, max := 40 },
                  { name := "body", min := 10, max := 40 }]
        hierarchy := ["h1", "body"] }
    spacing := { allowed_values := [4, 8], max_variance := 8 }
    color := { allowed_tokens := ["color.primary"], contrast_floor := 4 }
    density := { max_interactions_per_view := 10 }
    consistency :=
      { radius := { allowed_values := [JValue.num 8], max_variance := some 0 }
        elevation := { allowed_values := [JValue.num 1], max_variance := some 0 }
        motion := { allowed_values := [JValue.str "ease"], max_variance := some 0 } }
    patterns :=
      some { allowed := ["modal"], intents := some [("modal", ["confirm", "alert"])] } }

/-- A design-intent fixture with a density limit and a pattern override. -/
def testIntent : DesignIntentTaste :=
  { id := "intent-1"
    version := "1.0.0"
    density := some 10
    allowed_patterns := some [("modal", ["confirm"])] }

/-- A manifest fixture that satisfies every check against `testConstitution`
and `testIntent`. -/
def testManifest : RendererOutputManifest :=
  { contract := { id := "contract-1", version := "1.0.0" }
    renderer :=
      { name := "react-renderer", version := "1.0.0", target := "web"
        declares_contract := "contract-1" }
    inputs :=
      { design_intent := { id := "intent-1", version := "1.0.0", checksum := "abc" }
        visual_constitution := { id := "const-1", version := "1.0.0", checksum := none }
        pattern_registries := none }
    outputs :=
      { artifact := { format := "html", uri := "dist/index.html", checksum := none }
        token_usage := { declared := ["color.primary"], undeclared := [] }
        pattern_usage := { declared := ["modal"] }
        constitution_violations := []
        determinism := { deterministic := true, markers := [] } }
    taste :=
      { typography := { roles := [{ role := "h1", size := 24 },
                                  { role := "body", size := 16 }] }
        spacing := { values := [4, 8] }
        color := { tokens := ["color.primary"]
                   contrast := [{ pair := "fg-bg", ratioVal := 7 }] }
        density := { interactions_per_view := 5 }
        consistency := { radius := [8], elevation := [1], motion := ["ease"] }
        patterns := { usage := [{ pattern := "modal", intent := "confirm" }] } }
    generated_at := none
    notes := none }

/-- A registry fixture containing `testManifest`'s identity with its
contract id. -/
def testRegistry : RendererRegistry :=
  { registry_version := "1.0.0"
    renderers := [{ name := "react-renderer", version := "1.0.0", target := "web"
                    contract_id := "contract-1" }] }

/-- `testConstitution` without any patterns policy. -/
def noPatternsConstitution : VisualConstitution :=
  { testConstitution with patterns := none }

/-- `testManifest` with no declared pattern usage. -/
def emptyUsageManifest : RendererOutputManifest :=
  { testManifest with
    taste := { testManifest.taste with patterns := { usage := [] } } }

/-- A registry with no entries. -/
def emptyRegistry : RendererRegistry :=
  { registry_version := "1.0.0", renderers := [] }

/-- `testManifest` with the hierarchy example of the spec: h1 declared at 16
and body at 20. -/
def hierarchyExampleManifest : RendererOutputManifest :=
  { testManifest with
    taste :=
      { testManifest.taste with
        typography := { roles := [{ role := "h1", size := 16 },
                                  { role := "body", size := 20 }] } } }

/-- `testConstitution` with `max_font_sizes` set to 0, making the first taste
rule fail on any manifest declaring a font size. -/
def maxSizesZeroConstitution : VisualConstitution :=
  { testConstitution with
    typography := { testConstitution.typography with max_font_sizes := 0 } }

/-- `testManifest` with the precedence example of the spec: declared usage
`(modal, alert)`. -/
def precedenceExampleManifest : RendererOutputManifest :=
  { testManifest with
    taste :=
      { testManifest.taste with
        patterns := { usage := [{ pattern := "modal", intent := "alert" }] } } }

/-! ## Spec-side predicates (stated in the spec's words, to compare with the
embedded rules) -/

/-- The permitted-intent set of the spec for a `(pattern, intent)` check: the
intent document's override mapping entry for the pattern when present, else
the constitution's per-pattern mapping entry, else the empty set — the
override fully replaces the constitution mapping. -/
def specPermittedIntents (pats : PatternsConstitution)
    (overrideMap : Option (List (String × List String))) (p : String) :
    List String :=
  match overrideMap.bind (fun mp => mp.lookup p) with
  | some l => l
  | none =>
    match pats.intents.bind (fun mp => mp.lookup p) with
    | some l => l
    | none => []

/-- A declared usage pair is permitted when a patterns policy exists, the
pattern is in its allowed set, and the declared intent is in the permitted
set for that pattern. -/
def usagePermitted (cp : Option PatternsConstitution)
    (overrideMap : Option (List (String × List String)))
    (entry : RendererTastePatternUsage) : Prop :=
  ∃ pats, cp = some pats ∧ entry.pattern ∈ pats.allowed
    ∧ entry.intent ∈ specPermittedIntents pats overrideMap entry.pattern

/-- A declared typography role is acceptable when its role name resolves in
the constitution's role table and its size lies within that entry's range. -/
def declaredRoleOk (roleDefs : List TypographyRoleRange)
    (r : RendererTasteTypographyRole) : Prop :=
  ∃ d, roleDefs.find? (fun entry => entry.name == r.role) = some d
    ∧ d.min ≤ r.size ∧ r.size ≤ d.max

/-- Every adjacent pair of the hierarchy whose two roles are both declared
has the earlier declared size at least the later one; pairs with an
undeclared side are skipped. -/
def hierarchyRespected (declaredRoles : List RendererTasteTypographyRole)
    (hierarchy : List String) : Prop :=
  List.Chain'
    (fun a b => ∀ x y, declaredSize declaredRoles a = some x →
      declaredSize declaredRoles b = some y → y ≤ x) hierarchy

/-! ## Report invariant helper lemmas -/

/-- Extract `r.passed = false` from the fail-fast stop condition. -/
lemma stop_cond_failed {r : TasteRuleResult} {a b : Bool}
    (h : (!r.passed && a && b) = true) : r.passed = false := by
  simp only [Bool.and_eq_true, Bool.not_eq_true'] at h
  exact h.1.1

/-- An early taste report whose rule list contains a failing rule has its
errors computed by filtering and a failed status consistent with them. -/
lemma earlyTasteReport_invariant (manifest : RendererOutputManifest)
    (ruleset : TasteRuleset) (now : String) (results : List TasteRuleResult)
    (r : TasteRuleResult) (hp : r.passed = false) (hr : r ∈ results) :
    (earlyTasteReport manifest ruleset now results).errors
      = (earlyTasteReport manifest ruleset now results).rules.filter
          (fun rule => !rule.passed)
    ∧ ((earlyTasteReport manifest ruleset now results).status = "passed"
        ↔ (earlyTasteReport manifest ruleset now results).errors = []) := by
  refine ⟨rfl, ?_⟩
  have hmem : r ∈ results.filter (fun rule => !rule.passed) :=
    List.mem_filter.mpr ⟨hr, by simp [hp]⟩
  constructor
  · intro hst
    simp only [earlyTasteReport] at hst
    exact absurd hst (by decide)
  · intro he
    have : r ∈ ([] : List TasteRuleResult) := by
      rw [← he]; exact hmem
    exact absurd this (List.not_mem_nil r)

/-- The final taste report has its errors computed by filtering and its
status determined by their emptiness. -/
lemma finalTasteReport_invariant (manifest : RendererOutputManifest)
    (ruleset : TasteRuleset) (now : String)
    (results : List TasteRuleResult) :
    (finalTasteReport manifest ruleset now results).errors
      = (finalTasteReport manifest ruleset now results).rules.filter
          (fun rule => !rule.passed)
    ∧ ((finalTasteReport manifest ruleset now results).status = "passed"
        ↔ (finalTasteReport manifest ruleset now results).errors = []) := by
  refine ⟨rfl, ?_⟩
  simp only [finalTasteReport]
  by_cases h : (results.filter (fun rule => !rule.passed)).length = 0
  · rw [if_pos h]
    exact ⟨fun _ => List.length_eq_zero.mp h, fun _ => rfl⟩
  · rw [if_neg h]
    constructor
    · intro hst; exact absurd hst (by decide)
    · intro he; exact absurd (by simp [he]) h

/-- An early contract report whose rule pair contains a failing rule has its
errors computed by filtering and a failed status consistent with them. -/
lemma contractFailureReport_invariant (now : String)
    (r1 r2 : ValidationRuleResult) (r : ValidationRuleResult)
    (hp : r.passed = false) (hr : r ∈ [r1, r2]) :
    (contractFailureReport now r1 r2).errors
      = (contractFailureReport now r1 r2).rules.filter
          (fun rule => !rule.passed)
    ∧ ((contractFailureReport now r1 r2).status = "passed"
        ↔ (contractFailureReport now r1 r2).errors = []) := by
  refine ⟨rfl, ?_⟩
  have hmem : r ∈ ([r1, r2]).filter (fun rule => !rule.passed) :=
    List.mem_filter.mpr ⟨hr, by simp [hp]⟩
  constructor
  · intro hst
    simp only [contractFailureReport] at hst
    exact absurd hst (by decide)
  · intro he
    have : r ∈ ([] : List ValidationRuleResult) := by
      rw [← he]; exact hmem
    exact absurd this (List.not_mem_nil r)

/-- The final contract report has its errors computed by filtering and its
status determined by their emptiness. -/
lemma contractFinalReport_invariant (manifest : RendererOutputManifest)
    (now : String) (rules : List ValidationRuleResult) :
    (contractFinalReport manifest now rules).errors
      = (contractFinalReport manifest now rules).rules.filter
          (fun rule => !rule.passed)
    ∧ ((contractFinalReport manifest now rules).status = "passed"
        ↔ (contractFinalReport manifest now rules).errors = []) := by
  refine ⟨rfl, ?_⟩
  simp only [contractFinalReport]
  by_cases h : (rules.filter (fun rule => !rule.passed)).length = 0
  · rw [if_pos h]
    exact ⟨fun _ => List.length_eq_zero.mp h, fun _ => rfl⟩
  · rw [if_neg h]
    constructor
    · intro hst; exact absurd hst (by decide)
    · intro he; exact absurd (by simp [he]) h

/-! ## Claims -/

/-- C1: for every report returned by `buildRendererValidationReport` and by
`evaluateTaste` — including the early-return and fail-fast truncated reports —
the `errors` field is exactly the failing subsequence of `rules` (the filter
preserves order), and `status` is `"passed"` exactly when that list is
empty. -/
theorem C1_report_errors_status :
    (∀ (m : RendererOutputManifest) (c : VisualConstitution)
       (i : DesignIntentTaste) (rs : TasteRuleset)
       (opts : TasteEvaluationOptions) (now : String),
       (evaluateTaste m c i rs opts now).errors
         = (evaluateTaste m c i rs opts now).rules.filter
             (fun rule => !rule.passed)
       ∧ ((evaluateTaste m c i rs opts now).status = "passed"
           ↔ (evaluateTaste m c i rs opts now).errors = []))
    ∧ (∀ (m : RendererOutputManifest) (reg : RendererRegistry)
         (mv : Bool) (me : List String) (rv : Bool) (re : List String)
         (now : String),
         (buildRendererValidationReport m reg mv me rv re now).errors
           = (buildRendererValidationReport m reg mv me rv re now).rules.filter
               (fun rule => !rule.passed)
         ∧ ((buildRendererValidationReport m reg mv me rv re now).status
               = "passed"
             ↔ (buildRendererValidationReport m reg mv me rv re now).errors
                 = [])) := by
  constructor
  · intro m c i rs opts now
    simp only [evaluateTaste]
    split_ifs with h1 h2 h3 h4 h5 h6 h7 h8 h9
    · exact earlyTasteReport_invariant _ _ _ _ _ (stop_cond_failed h1) (by simp)
    · exact earlyTasteReport_invariant _ _ _ _ _ (stop_cond_failed h2) (by simp)
    · exact earlyTasteReport_invariant _ _ _ _ _ (stop_cond_failed h3) (by simp)
    · exact earlyTasteReport_invariant _ _ _ _ _ (stop_cond_failed h4) (by simp)
    · exact earlyTasteReport_invariant _ _ _ _ _ (stop_cond_failed h5) (by simp)
    · exact earlyTasteReport_invariant _ _ _ _ _ (stop_cond_failed h6) (by simp)
    · exact earlyTasteReport_invariant _ _ _ _ _ (stop_cond_failed h7) (by simp)
    · exact earlyTasteReport_invariant _ _ _ _ _ (stop_cond_failed h8) (by simp)
    · exact earlyTasteReport_invariant _ _ _ _ _ (stop_cond_failed h9) (by simp)
    · exact finalTasteReport_invariant _ _ _ _
  · intro m reg mv me rv re now
    simp only [buildRendererValidationReport]
    split_ifs with h
    · simp only [Bool.or_eq_true, Bool.not_eq_true'] at h
      rcases h with hmv | hrv
      · exact contractFailureReport_invariant now (manifestSchemaRule mv me)
          (registrySchemaRule rv re) (manifestSchemaRule mv me)
          (by simp [manifestSchemaRule, ruleResult, hmv]) (by simp)
      · exact contractFailureReport_invariant now (manifestSchemaRule mv me)
          (registrySchemaRule rv re) (registrySchemaRule rv re)
          (by simp [registrySchemaRule, ruleResult, hrv]) (by simp)
    · exact contractFinalReport_invariant _ _ _

/-- C2: both schema checks always contribute the first two rules with their
own outcomes regardless of each other (the rule pair heads every report), and
whenever at least one document is schema-invalid the report has exactly the 2
schema rules, status `"failed"`, and the sentinel renderer identity
`{unknown, unknown, unknown}` (so none of the six semantic checks appear). -/
theorem C2_schema_gate :
    ∀ (m : RendererOutputManifest) (reg : RendererRegistry)
      (mv : Bool) (me : List String) (rv : Bool) (re : List String)
      (now : String),
      (buildRendererValidationReport m reg mv me rv re now).rules.take 2
        = [manifestSchemaRule mv me, registrySchemaRule rv re]
      ∧ (manifestSchemaRule mv me).passed = mv
      ∧ (manifestSchemaRule mv me).id = "renderer-manifest.schema"
      ∧ (registrySchemaRule rv re).passed = rv
      ∧ (registrySchemaRule rv re).id = "renderer-registry.schema"
      ∧ ((mv && rv) = false →
          (buildRendererValidationReport m reg mv me rv re now).rules.length = 2
          ∧ (buildRendererValidationReport m reg mv me rv re now).status
              = "failed"
          ∧ (buildRendererValidationReport m reg mv me rv re now).renderer
              = { name := "unknown", version := "unknown", target := "unknown" }) := by
  intro m reg mv me rv re now
  refine ⟨?_, rfl, rfl, rfl, rfl, ?_⟩
  · simp only [buildRendererValidationReport]
    split_ifs <;> rfl
  · intro hff
    have hcond : (!mv || !rv) = true := by
      cases mv <;> cases rv <;> simp_all
    simp only [buildRendererValidationReport, hcond]
    exact ⟨rfl, rfl, rfl⟩

/-- C2 witness: a schema-invalid manifest document yields the truncated
2-rule failed report with the sentinel identity. -/
theorem C2_schema_gate_witness :
    (buildRendererValidationReport testManifest testRegistry false
        ["(root) is invalid"] true [] "t").rules.length = 2
    ∧ (buildRendererValidationReport testManifest testRegistry false
        ["(root) is invalid"] true [] "t").status = "failed"
    ∧ (buildRendererValidationReport testManifest testRegistry false
        ["(root) is invalid"] true [] "t").renderer
        = { name := "unknown", version := "unknown", target := "unknown" } :=
  (C2_schema_gate testManifest testRegistry false ["(root) is invalid"] true []
    "t").2.2.2.2.2 (by decide)

/-- C8: with the same input documents and options, two calls of
`evaluateTaste` agree on `rules`, `errors` and `status`, and likewise two
calls of `buildRendererValidationReport`, even when their `generated_at`
timestamps differ. -/
theorem C8_two_calls_identical :
    (∀ (m : RendererOutputManifest) (c : VisualConstitution)
       (i : DesignIntentTaste) (rs : TasteRuleset)
       (opts : TasteEvaluationOptions) (t1 t2 : String),
       (evaluateTaste m c i rs opts t1).rules
         = (evaluateTaste m c i rs opts t2).rules
       ∧ (evaluateTaste m c i rs opts t1).errors
         = (evaluateTaste m c i rs opts t2).errors
       ∧ (evaluateTaste m c i rs opts t1).status
         = (evaluateTaste m c i rs opts t2).status)
    ∧ (∀ (m : RendererOutputManifest) (reg : RendererRegistry)
         (mv : Bool) (me : List String) (rv : Bool) (re : List String)
         (t1 t2 : String),
         (buildRendererValidationReport m reg mv me rv re t1).rules
           = (buildRendererValidationReport m reg mv me rv re t2).rules
         ∧ (buildRendererValidationReport m reg mv me rv re t1).errors
           = (buildRendererValidationReport m reg mv me rv re t2).errors
         ∧ (buildRendererValidationReport m reg mv me rv re t1).status
           = (buildRendererValidationReport m reg mv me rv re t2).status) := by
  constructor
  · intro m c i rs opts t1 t2
    simp only [evaluateTaste]
    by_cases h1 : (!(typographyMaxSizesRule m c rs).passed && opts.failFast.getD true && !opts.verbose.getD false) = true
    · simp only [if_pos h1]; exact ⟨rfl, rfl, rfl⟩
    simp only [if_neg h1]
    by_cases h2 : (!(typographyHierarchyRule m c rs).passed && opts.failFast.getD true && !opts.verbose.getD false) = true
    · simp only [if_pos h2]; exact ⟨rfl, rfl, rfl⟩
    simp only [if_neg h2]
    by_cases h3 : (!(spacingAllowedRule m c rs).passed && opts.failFast.getD true && !opts.verbose.getD false) = true
    · simp only [if_pos h3]; exact ⟨rfl, rfl, rfl⟩
    simp only [if_neg h3]
    by_cases h4 : (!(spacingVarianceRule m c rs).passed && opts.failFast.getD true && !opts.verbose.getD false) = true
    · simp only [if_pos h4]; exact ⟨rfl, rfl, rfl⟩
    simp only [if_neg h4]
    by_cases h5 : (!(colorAllowedRule m c rs).passed && opts.failFast.getD true && !opts.verbose.getD false) = true
    · simp only [if_pos h5]; exact ⟨rfl, rfl, rfl⟩
    simp only [if_neg h5]
    by_cases h6 : (!(colorContrastRule m c rs).passed && opts.failFast.getD true && !opts.verbose.getD false) = true
    · simp only [if_pos h6]; exact ⟨rfl, rfl, rfl⟩
    simp only [if_neg h6]
    by_cases h7 : (!(densityLimitRule m i rs).passed && opts.failFast.getD true && !opts.verbose.getD false) = true
    · simp only [if_pos h7]; exact ⟨rfl, rfl, rfl⟩
    simp only [if_neg h7]
    by_cases h8 : (!(consistencyAllowedRule m c rs).passed && opts.failFast.getD true && !opts.verbose.getD false) = true
    · simp only [if_pos h8]; exact ⟨rfl, rfl, rfl⟩
    simp only [if_neg h8]
    by_cases h9 : (!(consistencyVarianceRule m c rs).passed && opts.failFast.getD true && !opts.verbose.getD false) = true
    · simp only [if_pos h9]; exact ⟨rfl, rfl, rfl⟩
    simp only [if_neg h9]
    exact ⟨rfl, rfl, rfl⟩
  · intro m reg mv me rv re t1 t2
    simp only [buildRendererValidationReport]
    by_cases h : (!mv || !rv) = true
    · simp only [if_pos h]; exact ⟨rfl, rfl, rfl⟩
    · simp only [if_neg h]; exact ⟨rfl, rfl, rfl⟩

/-- C3: with failFast on and verbose off, `evaluateTaste` stops immediately
after the first failing rule result — the report's `rules` list is the prefix
of the full ordered rule list up to and including the first failure (the nine
ordered checks yield ten rule results, the consistency check contributing
two); in particular a first-rule failure yields a 1-element list. With verbose
on, every rule result appears regardless of failFast or of how many fail. -/
theorem C3_fail_fast_truncation :
    ∀ (m : RendererOutputManifest) (c : VisualConstitution)
      (i : DesignIntentTaste) (rs : TasteRuleset)
      (opts : TasteEvaluationOptions) (now : String),
      (opts.failFast.getD true = true → opts.verbose.getD false = false →
        (evaluateTaste m c i rs opts now).rules
          = takeToFirstFailure (tasteAllRules m c i rs)
        ∧ ((typographyMaxSizesRule m c rs).passed = false →
            (evaluateTaste m c i rs opts now).rules.length = 1))
      ∧ (opts.verbose.getD false = true →
          (evaluateTaste m c i rs opts now).rules = tasteAllRules m c i rs) := by
  intro m c i rs opts now
  constructor
  · intro hff hv
    constructor
    · simp only [evaluateTaste, tasteAllRules, hff, hv, Bool.and_true,
        Bool.not_false]
      cases p1 : (typographyMaxSizesRule m c rs).passed with
      | false => simp [takeToFirstFailure, earlyTasteReport, p1]
      | true =>
        cases p2 : (typographyHierarchyRule m c rs).passed with
        | false => simp [takeToFirstFailure, earlyTasteReport, p1, p2]
        | true =>
          cases p3 : (spacingAllowedRule m c rs).passed with
          | false => simp [takeToFirstFailure, earlyTasteReport, p1, p2, p3]
          | true =>
            cases p4 : (spacingVarianceRule m c rs).passed with
            | false => simp [takeToFirstFailure, earlyTasteReport, p1, p2, p3, p4]
            | true =>
              cases p5 : (colorAllowedRule m c rs).passed with
              | false => simp [takeToFirstFailure, earlyTasteReport, p1, p2, p3, p4, p5]
              | true =>
                cases p6 : (colorContrastRule m c rs).passed with
                | false => simp [takeToFirstFailure, earlyTasteReport, p1, p2, p3, p4, p5, p6]
                | true =>
                  cases p7 : (densityLimitRule m i rs).passed with
                  | false => simp [takeToFirstFailure, earlyTasteReport, p1, p2, p3, p4, p5, p6, p7]
                  | true =>
                    cases p8 : (consistencyAllowedRule m c rs).passed with
                    | false => simp [takeToFirstFailure, earlyTasteReport, p1, p2, p3, p4, p5, p6, p7, p8]
                    | true =>
                      cases p9 : (consistencyVarianceRule m c rs).passed with
                      | false => simp [takeToFirstFailure, earlyTasteReport, p1, p2, p3, p4, p5, p6, p7, p8, p9]
                      | true =>
                        simp [takeToFirstFailure, finalTasteReport, p1, p2, p3, p4, p5, p6, p7, p8, p9]
    · intro hp
      simp [evaluateTaste, hff, hv, hp, earlyTasteReport]
  · intro hv
    simp [evaluateTaste, tasteAllRules, hv, finalTasteReport]

/-- C3 witness: with default failFast and verbose off, a failing first rule
truncates the report to 1 rule; with verbose on, the same inputs produce the
full rule list. -/
theorem C3_fail_fast_truncation_witness :
    (evaluateTaste testManifest maxSizesZeroConstitution testIntent testRuleset
        { failFast := some true, verbose := some false } "t").rules.length = 1
    ∧ (evaluateTaste testManifest maxSizesZeroConstitution testIntent
        testRuleset { failFast := some true, verbose := some true } "t").rules
        = tasteAllRules testManifest maxSizesZeroConstitution testIntent
            testRuleset :=
  ⟨((C3_fail_fast_truncation testManifest maxSizesZeroConstitution testIntent
      testRuleset { failFast := some true, verbose := some false } "t").1
      rfl rfl).2 (by decide),
   (C3_fail_fast_truncation testManifest maxSizesZeroConstitution testIntent
      testRuleset { failFast := some true, verbose := some true } "t").2 rfl⟩

/-- C6: `density.limit.rule` fails with message
`"Design intent missing density limit."` whenever the intent document
declares no density limit, whatever the manifest declares; with a limit
present, it passes exactly when the declared interactions-per-view is at most
the limit. -/
theorem C6_density_limit :
    ∀ (m : RendererOutputManifest) (i : DesignIntentTaste) (rs : TasteRuleset),
      (i.density = none →
        (densityLimitRule m i rs).passed = false
        ∧ (densityLimitRule m i rs).message
            = "Design intent missing density limit.")
      ∧ (∀ lim : Int, i.density = some lim →
          ((densityLimitRule m i rs).passed = true
            ↔ m.taste.density.interactions_per_view ≤ lim)) := by
  intro m i rs
  constructor
  · intro h
    simp [densityLimitRule, h, buildResult]
  · intro lim h
    simp [densityLimitRule, h, buildResult]

/-- C6 witness: a concrete intent without a density limit fails with the
stated message; with limit 10 and 5 declared interactions the rule passes
exactly by the comparison. -/
theorem C6_density_limit_witness :
    ((densityLimitRule testManifest { testIntent with density := none }
        testRuleset).passed = false
      ∧ (densityLimitRule testManifest { testIntent with density := none }
          testRuleset).message = "Design intent missing density limit.")
    ∧ ((densityLimitRule testManifest testIntent testRuleset).passed = true
        ↔ testManifest.taste.density.interactions_per_view ≤ 10) :=
  ⟨(C6_density_limit testManifest { testIntent with density := none }
      testRuleset).1 rfl,
   (C6_density_limit testManifest testIntent testRuleset).2 10 rfl⟩

/-- C7: `renderer-contract.registry.rule` passes exactly when a registry entry
matches the manifest identity and carries the manifest's contract id; when no
entry matches, the rule fails and its reported failure text (the rule's
counterexample field) is the distinct
`"Renderer entry missing from registry."` rather than the contract-mismatch
format; the rule is the fifth entry of the full validation report. -/
theorem C7_registry_contract_rule :
    ∀ (m : RendererOutputManifest) (reg : RendererRegistry),
      ((registryContractRule m reg).passed = true
        ↔ ∃ entry, findRegisteredRenderer m reg = some entry
            ∧ entry.contract_id = m.contract.id)
      ∧ (findRegisteredRenderer m reg = none →
          (registryContractRule m reg).passed = false
          ∧ (registryContractRule m reg).counterexample
              = some "Renderer entry missing from registry.")
      ∧ (∀ (me re : List String) (now : String),
          (buildRendererValidationReport m reg true me true re now).rules.get? 4
            = some (registryContractRule m reg)) := by
  intro m reg
  refine ⟨?_, ?_, ?_⟩
  · cases h : findRegisteredRenderer m reg with
    | none => simp [registryContractRule, ruleResult, h]
    | some entry => simp [registryContractRule, ruleResult, h]
  · intro h
    simp [registryContractRule, ruleResult, h]
  · intro me re now
    simp [buildRendererValidationReport, contractFinalReport]

/-- C7 witness: against an empty registry the rule fails with the
missing-entry text; on the matching fixture registry it sits at index 4 of
the report. -/
theorem C7_registry_contract_rule_witness :
    ((registryContractRule testManifest emptyRegistry).passed = false
      ∧ (registryContractRule testManifest emptyRegistry).counterexample
          = some "Renderer entry missing from registry.")
    ∧ (buildRendererValidationReport testManifest testRegistry true [] true []
        "t").rules.get? 4 = some (registryContractRule testManifest testRegistry) :=
  ⟨(C7_registry_contract_rule testManifest emptyRegistry).2.1 rfl,
   (C7_registry_contract_rule testManifest testRegistry).2.2 [] [] "t"⟩

/-- C9: with an empty declared pattern-usage list, `patterns.intent.rule`
passes — for any constitution, including one without a patterns policy. -/
theorem C9_empty_usage_passes :
    ∀ (m : RendererOutputManifest) (c : VisualConstitution)
      (i : DesignIntentTaste) (rs : TasteRuleset),
      m.taste.patterns.usage = [] →
      (patternsIntentRule m c i rs).passed = true := by
  intro m c i rs h
  simp [patternsIntentRule, h, patternUsageError, buildResult]

/-- C9 witness: the empty-usage manifest passes the rule against the
constitution with no patterns policy at all. -/
theorem C9_empty_usage_passes_witness :
    (patternsIntentRule emptyUsageManifest noPatternsConstitution testIntent
      testRuleset).passed = true :=
  C9_empty_usage_passes emptyUsageManifest noPatternsConstitution testIntent
    testRuleset rfl

/-- Membership in the JS-set element list is plain list membership. -/
lemma mem_dedupKeepFirst (x : String) :
    ∀ l : List String, x ∈ dedupKeepFirst l ↔ x ∈ l := by
  intro l
  induction l with
  | nil => simp [dedupKeepFirst]
  | cons a t ih =>
    rw [dedupKeepFirst]
    simp only [List.mem_cons, List.mem_filter, ih, decide_eq_true_eq]
    constructor
    · rintro (h | ⟨h, _⟩)
      · exact Or.inl h
      · exact Or.inr h
    · rintro (h | h)
      · exact Or.inl h
      · by_cases hxa : x = a
        · exact Or.inl hxa
        · exact Or.inr ⟨h, hxa⟩

/-- `checkAllowedValues` accepts the values exactly when every declared value
has a stringwise match in the band's allowed set. -/
lemma checkAllowedValues_none_iff (band : ConsistencyBand)
    (values : List JValue) :
    checkAllowedValues band values = none
      ↔ ∀ v ∈ values, ∃ a ∈ band.allowed_values, jstr a = jstr v := by
  simp only [checkAllowedValues]
  cases hf : values.find? (fun value =>
      !((dedupKeepFirst (band.allowed_values.map jstr)).contains (jstr value))) with
  | none =>
    constructor
    · intro _ v hv
      have hpred := List.find?_eq_none.mp hf v hv
      have hmem : jstr v ∈ dedupKeepFirst (band.allowed_values.map jstr) := by
        simpa using hpred
      rw [mem_dedupKeepFirst] at hmem
      obtain ⟨a, ha, hae⟩ := List.mem_map.mp hmem
      exact ⟨a, ha, hae⟩
    · intro _
      rfl
  | some invalid =>
    constructor
    · intro heq
      exact absurd heq (by simp)
    · intro hall
      have hp := List.find?_some hf
      have hm := List.mem_of_find?_eq_some hf
      obtain ⟨a, ha, hae⟩ := hall invalid hm
      have hmem : jstr invalid ∈ dedupKeepFirst (band.allowed_values.map jstr) :=
        (mem_dedupKeepFirst _ _).mpr (List.mem_map.mpr ⟨a, ha, hae⟩)
      simp [hmem] at hp

/-- C10: `consistency.allowed.rule` decides membership of each declared value
by comparing string forms — the rule passes exactly when each axis's declared
values all have stringwise matches in the band's allowed set, so a numeric 8
is accepted when the band lists the string "8" and vice versa. -/
theorem C10_string_membership :
    (∀ (band : ConsistencyBand) (values : List JValue),
       checkAllowedValues band values = none
         ↔ ∀ v ∈ values, ∃ a ∈ band.allowed_values, jstr a = jstr v)
    ∧ (∀ (m : RendererOutputManifest) (c : VisualConstitution)
         (rs : TasteRuleset),
         (consistencyAllowedRule m c rs).passed = true
           ↔ (checkAllowedValues c.consistency.radius
                 (m.taste.consistency.radius.map JValue.num) = none
              ∧ checkAllowedValues c.consistency.elevation
                  (m.taste.consistency.elevation.map JValue.num) = none
              ∧ checkAllowedValues c.consistency.motion
                  (m.taste.consistency.motion.map JValue.str) = none))
    ∧ checkAllowedValues
        { allowed_values := [JValue.str "8"], max_variance := none }
        [JValue.num 8] = none
    ∧ checkAllowedValues
        { allowed_values := [JValue.num 8], max_variance := none }
        [JValue.str "8"] = none := by
  refine ⟨checkAllowedValues_none_iff, ?_, by decide, by decide⟩
  intro m c rs
  cases hr : checkAllowedValues c.consistency.radius
      (m.taste.consistency.radius.map JValue.num) <;>
    cases he : checkAllowedValues c.consistency.elevation
        (m.taste.consistency.elevation.map JValue.num) <;>
      cases hm : checkAllowedValues c.consistency.motion
          (m.taste.consistency.motion.map JValue.str) <;>
        simp [consistencyAllowedRule, buildResult, hr, he, hm, Option.orElse]

/-- The JS `?? … ?? []` chain on intent mappings equals the spec's
permitted-intent set. -/
lemma allowedIntents_eq (pats : PatternsConstitution)
    (ov : Option (List (String × List String))) (p : String) :
    ((ov.bind (fun m => m.lookup p)).orElse
      (fun _ => pats.intents.bind (fun m => m.lookup p))).getD []
      = specPermittedIntents pats ov p := by
  simp only [specPermittedIntents]
  cases h1 : ov.bind (fun m => m.lookup p) <;>
    cases h2 : pats.intents.bind (fun m => m.lookup p) <;>
      simp [Option.orElse, h1, h2]

/-- One usage raises no error exactly when it is permitted. -/
lemma singleUsageError_none_iff (cp : Option PatternsConstitution)
    (ov : Option (List (String × List String)))
    (entry : RendererTastePatternUsage) :
    singleUsageError cp ov entry = none ↔ usagePermitted cp ov entry := by
  cases cp with
  | none => simp [singleUsageError, usagePermitted]
  | some pats =>
    simp only [singleUsageError, allowedIntents_eq, usagePermitted]
    by_cases h1 : (pats.allowed.contains entry.pattern) = true
    · by_cases h2 : ((specPermittedIntents pats ov entry.pattern).contains
          entry.intent) = true
      · simp_all
      · simp_all
    · simp_all

/-- The usage loop raises no error exactly when every usage is permitted. -/
lemma patternUsageError_none_iff (cp : Option PatternsConstitution)
    (ov : Option (List (String × List String))) :
    ∀ l : List RendererTastePatternUsage,
      patternUsageError cp ov l = none ↔ ∀ e ∈ l, usagePermitted cp ov e := by
  intro l
  induction l with
  | nil => simp [patternUsageError]
  | cons e t ih =>
    rw [patternUsageError]
    cases hs : singleUsageError cp ov e with
    | some err =>
      constructor
      · intro h; exact absurd h (by simp)
      · intro hall
        have hn := (singleUsageError_none_iff cp ov e).mpr (hall e (by simp))
        rw [hs] at hn
        exact absurd hn (by simp)
    | none =>
      rw [ih]
      have he := (singleUsageError_none_iff cp ov e).mp hs
      constructor
      · intro hall e' he'
        rcases List.mem_cons.mp he' with h | h
        · exact h ▸ he
        · exact hall e' h
      · intro hall e' he'
        exact hall e' (List.mem_cons_of_mem _ he')

/-- The usage loop returns the error of the first violating usage. -/
lemma patternUsageError_eq_findSome (cp : Option PatternsConstitution)
    (ov : Option (List (String × List String))) :
    ∀ l : List RendererTastePatternUsage,
      patternUsageError cp ov l = l.findSome? (singleUsageError cp ov) := by
  intro l
  induction l with
  | nil => rfl
  | cons e t ih =>
    rw [patternUsageError, List.findSome?_cons]
    cases hs : singleUsageError cp ov e with
    | some err => rfl
    | none => exact ih

/-- C4: `patterns.intent.rule` passes exactly when every declared usage pair
is permitted — a patterns policy exists, the pattern is in the allowed set,
and the intent is in the override-else-constitution-else-empty permitted set
(the override fully replaces the constitution mapping); the rule's reported
counterexample is that of the first violating usage only. The spec's
precedence example — override `modal ↦ [confirm]` over constitution mapping
`modal ↦ [confirm, alert]` with usage `(modal, alert)` — fails. -/
theorem C4_patterns_intent_rule :
    (∀ (m : RendererOutputManifest) (c : VisualConstitution)
       (i : DesignIntentTaste) (rs : TasteRuleset),
       ((patternsIntentRule m c i rs).passed = true
         ↔ ∀ entry ∈ m.taste.patterns.usage,
             usagePermitted c.patterns i.allowed_patterns entry)
       ∧ (patternsIntentRule m c i rs).counterexample
           = m.taste.patterns.usage.findSome?
               (singleUsageError c.patterns i.allowed_patterns))
    ∧ (patternsIntentRule precedenceExampleManifest testConstitution
        testIntent testRuleset).passed = false := by
  constructor
  · intro m c i rs
    constructor
    · have hp : (patternsIntentRule m c i rs).passed
          = (patternUsageError c.patterns i.allowed_patterns
              m.taste.patterns.usage).isNone := rfl
      rw [hp, Option.isNone_iff_eq_none, patternUsageError_none_iff]
    · rw [← patternUsageError_eq_findSome]
      cases hf : patternUsageError c.patterns i.allowed_patterns
          m.taste.patterns.usage with
      | none => simp [patternsIntentRule, buildResult, hf]
      | some e => simp [patternsIntentRule, buildResult, hf]
  · decide

/-- The declared-roles loop raises no error exactly when every declared role
resolves in the role table within its range. -/
lemma roleRangeError_none_iff (roleDefs : List TypographyRoleRange) :
    ∀ l : List RendererTasteTypographyRole,
      roleRangeError roleDefs l = none ↔ ∀ r ∈ l, declaredRoleOk roleDefs r := by
  intro l
  induction l with
  | nil => simp [roleRangeError]
  | cons r t ih =>
    rw [roleRangeError]
    cases hd : roleDefs.find? (fun entry => entry.name == r.role) with
    | none =>
      constructor
      · intro h; exact absurd h (by simp)
      · intro hall
        obtain ⟨d, hd', _⟩ := hall r (by simp)
        rw [hd] at hd'
        exact absurd hd' (by simp)
    | some defn =>
      dsimp only
      by_cases hc : r.size < defn.min ∨ defn.max < r.size
      · rw [if_pos hc]
        constructor
        · intro h; exact absurd h (by simp)
        · intro hall
          obtain ⟨d, hd', hmin, hmax⟩ := hall r (by simp)
          rw [hd] at hd'
          cases hd'
          rcases hc with h | h
          · exact absurd hmin (by omega)
          · exact absurd hmax (by omega)
      · rw [if_neg hc]
        rw [ih]
        push_neg at hc
        constructor
        · intro hall r' hr'
          rcases List.mem_cons.mp hr' with h | h
          · exact h ▸ ⟨defn, hd, hc.1, hc.2⟩
          · exact hall r' h
        · intro hall r' hr'
          exact hall r' (List.mem_cons_of_mem _ hr')

/-- A hierarchy list with at most one role has no adjacent pairs. -/
lemma chain'_of_short {R : String → String → Prop} :
    ∀ l : List String, l.length ≤ 1 → List.Chain' R l := by
  intro l h
  match l, h with
  | [], _ => exact List.chain'_nil
  | [a], _ => exact List.chain'_singleton a

/-- The adjacent-pair walk raises no error exactly when the hierarchy is
respected by the declared sizes. -/
lemma hierarchyPairError_none_iff
    (declaredRoles : List RendererTasteTypographyRole) :
    ∀ h : List String,
      hierarchyPairError declaredRoles h = none
        ↔ hierarchyRespected declaredRoles h := by
  intro h
  induction h with
  | nil => simp [hierarchyPairError, hierarchyRespected]
  | cons a t ih =>
    cases t with
    | nil => simp [hierarchyPairError, hierarchyRespected]
    | cons b t' =>
      rw [hierarchyPairError]
      unfold hierarchyRespected
      rw [List.chain'_cons]
      rw [show (hierarchyRespected declaredRoles (b :: t')) =
        List.Chain' (fun a b => ∀ x y, declaredSize declaredRoles a = some x →
          declaredSize declaredRoles b = some y → y ≤ x) (b :: t') from rfl] at ih
      cases hsa : declaredSize declaredRoles a with
      | none =>
        have hvac : ∀ x y, declaredSize declaredRoles a = some x →
            declaredSize declaredRoles b = some y → y ≤ x := by
          intro x y hx hy; rw [hsa] at hx; exact absurd hx (by simp)
        dsimp only
        rw [ih]
        simp [hvac]
      | some x =>
        cases hsb : declaredSize declaredRoles b with
        | none =>
          have hvac : ∀ x' y, declaredSize declaredRoles a = some x' →
              declaredSize declaredRoles b = some y → y ≤ x' := by
            intro x' y hx hy; rw [hsb] at hy; exact absurd hy (by simp)
          dsimp only
          rw [ih]
          simp [hvac]
        | some y =>
          dsimp only
          by_cases hlt : x < y
          · rw [if_pos hlt]
            constructor
            · intro hcontr; exact absurd hcontr (by simp)
            · rintro ⟨hab, _⟩
              have := hab x y rfl rfl
              omega
          · rw [if_neg hlt]
            rw [ih]
            constructor
            · intro hch
              refine ⟨?_, hch⟩
              intro x' y' hx' hy'
              cases hx'; cases hy'
              omega
            · rintro ⟨_, hch⟩
              exact hch

/-- C5: `typography.hierarchy.rule` passes exactly when every declared role
resolves in the constitution's role table with its size inside that entry's
range and every adjacent hierarchy pair with both roles declared has the
earlier size at least the later one (undeclared roles are skipped); the
spec's example — hierarchy `[h1, body]` with declared h1=16, body=20 — fails
with a counterexample naming h1(16) and body(20). -/
theorem C5_typography_hierarchy_rule :
    (∀ (m : RendererOutputManifest) (c : VisualConstitution)
       (rs : TasteRuleset),
       (typographyHierarchyRule m c rs).passed = true
         ↔ ((∀ r ∈ m.taste.typography.roles,
               declaredRoleOk c.typography.roles r)
            ∧ hierarchyRespected m.taste.typography.roles
                c.typography.hierarchy))
    ∧ (typographyHierarchyRule hierarchyExampleManifest testConstitution
        testRuleset).passed = false
    ∧ (typographyHierarchyRule hierarchyExampleManifest testConstitution
        testRuleset).counterexample
        = some "h1 (16) should not be smaller than body (20)." := by
  refine ⟨?_, by decide, by decide⟩
  intro m c rs
  have hp : (typographyHierarchyRule m c rs).passed
      = (match roleRangeError c.typography.roles m.taste.typography.roles with
         | some e => some e
         | none =>
           if 1 < c.typography.hierarchy.length then
             hierarchyPairError m.taste.typography.roles c.typography.hierarchy
           else none).isNone := rfl
  rw [hp]
  cases hr : roleRangeError c.typography.roles m.taste.typography.roles with
  | some e =>
    dsimp only
    constructor
    · intro hcontr; exact absurd hcontr (by simp)
    · rintro ⟨hroles, _⟩
      have hnone := (roleRangeError_none_iff _ _).mpr hroles
      rw [hr] at hnone
      exact absurd hnone (by simp)
  | none =>
    dsimp only
    have hroles := (roleRangeError_none_iff c.typography.roles
      m.taste.typography.roles).mp hr
    by_cases hlen : 1 < c.typography.hierarchy.length
    · rw [if_pos hlen, Option.isNone_iff_eq_none, hierarchyPairError_none_iff]
      constructor
      · intro hch
        exact ⟨hroles, hch⟩
      · rintro ⟨_, hch⟩
        exact hch
    · rw [if_neg hlen]
      simp only [Option.isNone_none]
      constructor
      · intro _
        exact ⟨hroles, chain'_of_short _ (by omega)⟩
      · intro _; trivial
